import Mathlib

/-! Verification of the OOB boot/power control subsystem of the talos deploy
system: a shallow embedding of src/scripts/redfish_pxe_boot.py (transport,
attempt cascades, result reporting) and of the extract_oob_info record
mapping from src/maas-to-talos/maas_to_inventory.py, with theorems settling
the specified behavioral properties.

The network is modelled as an oracle: a function from the index of the
open() call to its outcome.  Each request issued (and each sleep) is
recorded in an event trace, so that claims about which attempts were made,
and in which order, are statements about the trace.
-/

namespace TalosDeploy

/-- A JSON value, covering exactly the shapes the script builds:
objects, strings, booleans and integers. -/
inductive JVal where
  | str (s : String)
  | bool (b : Bool)
  | int (n : Int)
  | obj (fields : List (String × JVal))
deriving Repr

/-- Hex digit for the \uXXXX escapes of json.dumps. -/
def hexDigit (n : Nat) : Char :=
  "0123456789abcdef".toList.getD n '0'

/-- Escaping of one character as performed by Python json.dumps with the
default ensure_ascii=True. -/
def jsonEscapeChar (c : Char) : String :=
  if c = '\\' then "\\\\"
  else if c = '"' then "\\\""
  else if c = '\n' then "\\n"
  else if c = '\t' then "\\t"
  else if c = '\r' then "\\r"
  else if c.toNat < 32 || c.toNat > 126 then
    "\\u" ++ String.mk [hexDigit (c.toNat / 4096 % 16), hexDigit (c.toNat / 256 % 16),
      hexDigit (c.toNat / 16 % 16), hexDigit (c.toNat % 16)]
  else String.mk [c]

/-- String-content escaping of json.dumps. -/
def jsonEscape (s : String) : String :=
  String.join (s.data.map jsonEscapeChar)

mutual

/-- json.dumps with the Python default separators (comma-space and
colon-space). -/
def jsonDumps : JVal → String
  | .str s => "\"" ++ jsonEscape s ++ "\""
  | .bool b => if b then "true" else "false"
  | .int n => toString n
  | .obj fs => "\x7b" ++ jsonDumpsFields fs ++ "\x7d"

/-- Comma-separated field list of a dumped JSON object. -/
def jsonDumpsFields : List (String × JVal) → String
  | [] => ""
  | [(k, v)] => "\"" ++ jsonEscape k ++ "\": " ++ jsonDumps v
  | (k, v) :: rest => "\"" ++ jsonEscape k ++ "\": " ++ jsonDumps v ++ ", " ++ jsonDumpsFields rest

end

/-- Whether the first list is a prefix of the second (character lists). -/
def listIsPre : List Char → List Char → Bool
  | [], _ => true
  | _ :: _, [] => false
  | p :: ps, c :: cs => (p == c) && listIsPre ps cs

/-- Whether the first list occurs as a contiguous segment of the second. -/
def listSubstr (pat : List Char) : List Char → Bool
  | [] => listIsPre pat []
  | c :: cs => listIsPre pat (c :: cs) || listSubstr pat cs

/-- Python substring membership test (pat in s). -/
def strIn (pat s : String) : Bool :=
  listSubstr pat.data s.data

/-- Python str.startswith. -/
def pyStartswith (s pat : String) : Bool :=
  listIsPre pat.data s.data

/-- Python str.lower, via the per-character lowering. -/
def pyLower (s : String) : String :=
  String.mk (s.data.map Char.toLower)

/-- Python str.split on a one-character separator (never drops empty
parts). -/
def splitChar (sep : Char) : List Char → List (List Char)
  | [] => [[]]
  | c :: cs =>
    match splitChar sep cs with
    | [] => [[]]
    | h :: t => if c == sep then [] :: h :: t else (c :: h) :: t

/-- url.split on the slash character, as a list of strings. -/
def pySplitSlash (s : String) : List String :=
  (splitChar '/' s.data).map String.mk

/-- Python sep.join of a list of strings. -/
def joinSep (sep : String) : List String → String
  | [] => ""
  | [x] => x
  | x :: xs => x ++ sep ++ joinSep sep xs

/-- UTF-8 encoding of one code point, as a list of byte values. -/
def utf8Bytes (c : Char) : List Nat :=
  let n := c.toNat
  if n < 128 then [n]
  else if n < 2048 then [192 + n / 64, 128 + n % 64]
  else if n < 65536 then [224 + n / 4096, 128 + n / 64 % 64, 128 + n % 64]
  else [240 + n / 262144, 128 + n / 4096 % 64, 128 + n / 64 % 64, 128 + n % 64]

/-- UTF-8 encoding of a string (Python str.encode with encoding utf-8). -/
def strUtf8 (s : String) : List Nat :=
  (s.data.map utf8Bytes).flatten

/-- The base64 alphabet. -/
def b64Alphabet : String :=
  "ABCDEFGHIJKLMNOPQRSTUVWXYZabcdefghijklmnopqrstuvwxyz0123456789+/"

/-- Character of the base64 alphabet at a 6-bit index. -/
def b64Char (n : Nat) : Char :=
  b64Alphabet.toList.getD n 'A'

/-- Standard base64 of a byte list (Python base64.b64encode). -/
def base64Encode : List Nat → String
  | [] => ""
  | [a] => String.mk [b64Char (a / 4), b64Char (a % 4 * 16)] ++ "=="
  | [a, b] => String.mk [b64Char (a / 4), b64Char (a % 4 * 16 + b / 16), b64Char (b % 16 * 4)] ++ "="
  | a :: b :: c :: rest =>
      String.mk [b64Char (a / 4), b64Char (a % 4 * 16 + b / 16), b64Char (b % 16 * 4 + c / 64),
        b64Char (c % 64)] ++ base64Encode rest

/-- The Basic authentication header value built in make_request. -/
def auth_header (username password : String) : String :=
  "Basic " ++ base64Encode (strUtf8 (username ++ ":" ++ password))

/-- The headers dict built in make_request. -/
def mkHeaders (username password : String) : List (String × String) :=
  [("Content-Type", "application/json"), ("Authorization", auth_header username password)]

/-- An HTTP request as assembled by make_request: urllib Request(url, data,
headers, method), with the body already JSON-encoded. -/
structure Req where
  url : String
  method : String
  headers : List (String × String)
  data : Option String
deriving Repr, DecidableEq

/-- Outcome of one opener.open call: success with a status code, an
HTTPError carrying code, reason and response headers, a URLError, or any
other exception. -/
inductive OpenResult where
  | success (code : Int)
  | httpError (code : Int) (reason : String) (headers : List (String × String))
  | urlError (reason : String)
  | otherError (msg : String)
deriving Repr, DecidableEq

/-- Whether an open outcome is an exception (anything but success). -/
def OpenResult.isErr : OpenResult → Bool
  | .success _ => false
  | _ => true

/-- Python str() of the exception carried by a failed open outcome, as
interpolated into the redirect-failure message. -/
def excnStr : OpenResult → String
  | .success _ => ""
  | .httpError code reason _ => "HTTP Error " ++ toString code ++ ": " ++ reason
  | .urlError reason => "<urlopen error " ++ reason ++ ">"
  | .otherError m => m

/-- An observable event: a network request being issued, or a sleep. -/
inductive Event where
  | req (r : Req)
  | sleep (seconds : Nat)
deriving Repr, DecidableEq

/-- The transport state threaded through the script: the network oracle
(outcome of the n-th open call), the number of open calls made so far, and
the trace of events. -/
structure MRState where
  tr : Nat → OpenResult
  calls : Nat
  trace : List Event

/-- Issue one opener.open call: consult the oracle at the current call
index, bump the counter and record the request. -/
def openCall (st : MRState) (r : Req) : OpenResult × MRState :=
  (st.tr st.calls, { st with calls := st.calls + 1, trace := st.trace ++ [.req r] })

/-- time.sleep recorded as a trace event. -/
def sleepEvent (n : Nat) (st : MRState) : MRState :=
  { st with trace := st.trace ++ [.sleep n] }

/-- The scheme-plus-host prefix computed in make_request by joining the
first three slash-separated components of the URL. -/
def baseUrl (url : String) : String :=
  joinSep "/" ((pySplitSlash url).take 3)

/-- The urllib Request built by make_request from a URL, the credentials,
the method and the optional JSON body. -/
def mkRequest (url username password method : String) (data : Option JVal) : Req :=
  { url := url, method := method, headers := mkHeaders username password,
    data := data.map jsonDumps }

/-- make_request from redfish_pxe_boot.py: one request with Basic auth; on
an HTTPError with a redirect status (301/302/307/308) and a Location
header, one manual follow-up to the resolved location with the same
method, headers and body; HTTPError otherwise reported with its code and
reason; URLError and other exceptions reported with the -1 sentinel.
Returns the (success, code, message) triple together with the new
transport state. -/
def make_request (st : MRState) (url username password method : String)
    (data : Option JVal) : (Bool × Int × String) × MRState :=
  let request := mkRequest url username password method data
  let (res, st) := openCall st request
  match res with
  | .success code => ((true, code, "Success"), st)
  | .httpError code reason hdrs =>
      if (code == 301 || code == 302 || code == 307 || code == 308)
          && (hdrs.lookup "Location").isSome then
        let original_redirect := (hdrs.lookup "Location").getD ""
        let redirect_url :=
          if !pyStartswith original_redirect "http" then baseUrl url ++ original_redirect
          else original_redirect
        let request2 := mkRequest redirect_url username password method data
        let (res2, st) := openCall st request2
        match res2 with
        | .success code2 =>
            ((true, code2, "Success (after redirect to " ++ original_redirect ++ ")"), st)
        | e => ((false, code, "Redirect to " ++ original_redirect ++ " failed: " ++ excnStr e), st)
      else
        ((false, code, "HTTP Error: " ++ reason), st)
  | .urlError reason => ((false, -1, "URL Error: " ++ reason), st)
  | .otherError m => ((false, -1, "Error: " ++ m), st)

/-- Standard Redfish system resource URL used by set_boot_device. -/
def sbStdUrl (oob_address : String) : String :=
  "https://" ++ oob_address ++ "/redfish/v1/Systems/1"

/-- Dell OEM system resource URL used by set_boot_device. -/
def sbOemUrl (oob_address : String) : String :=
  "https://" ++ oob_address ++ "/redfish/v1/Systems/System.Embedded.1"

/-- Standard Redfish reset action URL used by reset_server. -/
def rsStdUrl (oob_address : String) : String :=
  "https://" ++ oob_address ++ "/redfish/v1/Systems/1/Actions/ComputerSystem.Reset"

/-- Dell OEM reset action URL used by reset_server. -/
def rsOemUrl (oob_address : String) : String :=
  "https://" ++ oob_address ++ "/redfish/v1/Systems/System.Embedded.1/Actions/ComputerSystem.Reset"

/-- The boot-override body: BootSourceOverrideEnabled Once, target device. -/
def bootData (boot_device : String) : JVal :=
  .obj [("Boot", .obj [("BootSourceOverrideEnabled", .str "Once"),
    ("BootSourceOverrideTarget", .str boot_device)])]

/-- The reset body: a single ResetType field. -/
def resetData (reset_type : String) : JVal :=
  .obj [("ResetType", .str reset_type)]

/-- set_boot_device from redfish_pxe_boot.py (boot_device defaults to Pxe
at the call site): PATCH the standard system resource; on a 400 failure
retry the same body against the Dell OEM resource; otherwise return the
first failure as is. -/
def set_boot_device (st : MRState) (oob_address username password boot_device : String) :
    (Bool × Int × String) × MRState :=
  let ((success, code, msg), st) :=
    make_request st (sbStdUrl oob_address) username password "PATCH" (some (bootData boot_device))
  if success then ((true, code, "Boot device set successfully"), st)
  else if code == 400 then
    let ((success_oem, code_oem, msg_oem), st) :=
      make_request st (sbOemUrl oob_address) username password "PATCH" (some (bootData boot_device))
    if success_oem then ((true, code_oem, "Boot device set successfully (Dell OEM)"), st)
    else ((false, code_oem, "Standard and OEM methods failed: " ++ msg ++ " / " ++ msg_oem), st)
  else ((false, code, msg), st)

/-- reset_server from redfish_pxe_boot.py (reset_type defaults to
ForceRestart at the call site): POST the standard reset action; on a 400
failure try the Dell OEM action with the same type, then with type On,
then ForceOff followed after a 5 second sleep by On; report the partial
power failure distinctly when ForceOff succeeded but the final On did
not. -/
def reset_server (st : MRState) (oob_address username password reset_type : String) :
    (Bool × Int × String) × MRState :=
  let ((success, code, msg), st) :=
    make_request st (rsStdUrl oob_address) username password "POST" (some (resetData reset_type))
  if success then ((true, code, "Server reset triggered"), st)
  else if code == 400 then
    let ((success_oem, code_oem, msg_oem), st) :=
      make_request st (rsOemUrl oob_address) username password "POST" (some (resetData reset_type))
    if success_oem then ((true, code_oem, "Server reset triggered (Dell OEM)"), st)
    else
      let ((success_on, code_on, msg_on), st) :=
        make_request st (rsOemUrl oob_address) username password "POST" (some (resetData "On"))
      if success_on then ((true, code_on, "Server powered on (Dell OEM)"), st)
      else
        let ((success_off, code_off, msg_off), st) :=
          make_request st (rsOemUrl oob_address) username password "POST" (some (resetData "ForceOff"))
        if success_off then
          let st := sleepEvent 5 st
          let ((success_on2, code_on2, msg_on2), st) :=
            make_request st (rsOemUrl oob_address) username password "POST" (some (resetData "On"))
          if success_on2 then
            ((true, code_on2, "Server reset triggered (Dell OEM ForceOff+On)"), st)
          else
            ((false, code_on2,
              "Server powered off successfully but failed to power back on: " ++ msg_on2), st)
        else
          ((false, code_oem, "All Dell reset methods failed: std=" ++ msg ++ ", oem=" ++ msg_oem
            ++ ", on=" ++ msg_on ++ ", off=" ++ msg_off), st)
  else ((false, code, msg), st)

/-- The usage message printed on a wrong argument count. -/
def usageMsg : String :=
  "Usage: redfish_pxe_boot.py <oob_address> <username> <password> <action>"

/-- What one invocation of main produces: the JSON object printed to
stdout, as an ordered field list, and the process exit code. -/
structure MainResult where
  output : List (String × JVal)
  exitCode : Nat
deriving Repr

/-- The four-field result dict assembled at the end of main. -/
def resultRecord (success : Bool) (code : Int) (msg : String) : List (String × JVal) :=
  [("failed", .bool (!success)), ("changed", .bool success),
   ("status_code", .int code), ("msg", .str msg)]

/-- main from redfish_pxe_boot.py over an argv list (argv 0 is the script
name): wrong argument count prints the usage record and exits 1;
otherwise the action is dispatched (set_boot, reset, or an unknown-action
failure with code -1) and the four-field result record is printed, with
exit 0 exactly on success. -/
def main (st : MRState) (argv : List String) : MainResult × MRState :=
  if argv.length ≠ 5 then
    ({ output := [("failed", .bool true), ("msg", .str usageMsg)], exitCode := 1 }, st)
  else
    let oob_address := argv.getD 1 ""
    let username := argv.getD 2 ""
    let password := argv.getD 3 ""
    let action := argv.getD 4 ""
    let ((success, code, msg), st) :=
      if action == "set_boot" then set_boot_device st oob_address username password "Pxe"
      else if action == "reset" then reset_server st oob_address username password "ForceRestart"
      else ((false, -1, "Unknown action: " ++ action), st)
    ({ output := resultRecord success code msg,
       exitCode := if success then 0 else 1 }, st)

/-- The fields of a MAAS machine record consulted by extract_oob_info:
the power type string (dict get with default empty) and the power
parameters dict. -/
structure Machine where
  power_type : String
  power_parameters : List (String × String)

/-- extract_oob_info from maas_to_inventory.py: map the MAAS power type
onto an OOB type by substring tests (ipmi, virsh, hmc case sensitive; ilo,
idrac, redfish on the lowercased string), falling back to the power type
itself when nonempty and to manual when empty; then copy the connection
details present in the power parameters. -/
def extract_oob_info (machine : Machine) : List (String × String) :=
  let power_type := machine.power_type
  let power_params := machine.power_parameters
  let oob_type :=
    if strIn "ipmi" power_type then "ipmi"
    else if strIn "virsh" power_type then "virsh"
    else if strIn "hmc" power_type then "hmc"
    else if strIn "ilo" (pyLower power_type) || strIn "hpilo" (pyLower power_type) then "ilo"
    else if strIn "idrac" (pyLower power_type) || strIn "drac" (pyLower power_type) then "idrac"
    else if strIn "redfish" (pyLower power_type) then "redfish"
    else if power_type == "" then "manual" else power_type
  let oob_info := [("oob_type", oob_type)]
  let oob_info := oob_info ++
    (match power_params.lookup "power_address" with
     | some a => [("oob_address", a)]
     | none => [])
  let oob_info := oob_info ++
    (match power_params.lookup "power_user" with
     | some u => [("oob_username", u)]
     | none => [])
  let oob_info := oob_info ++
    (match power_params.lookup "power_pass" with
     | some p => [("oob_password", p)]
     | none => [])
  oob_info

/-- The disjunction of the six vendor pattern tests of extract_oob_info. -/
def oobRecognized (power_type : String) : Bool :=
  strIn "ipmi" power_type || strIn "virsh" power_type || strIn "hmc" power_type
    || strIn "ilo" (pyLower power_type) || strIn "hpilo" (pyLower power_type)
    || strIn "idrac" (pyLower power_type) || strIn "drac" (pyLower power_type)
    || strIn "redfish" (pyLower power_type)

/-! Concrete network oracles:

Fixed transport scripts used to evaluate the embedding on closed inputs:
each maps the index of an open call to its outcome. -/

/-- Every request is rejected with 401 Unauthorized. -/
def trAuthFail : Nat → OpenResult := fun _ => .httpError 401 "Unauthorized" []

/-- Initial transport state over the 401 oracle. -/
def stAuthFail : MRState := { tr := trAuthFail, calls := 0, trace := [] }

/-- First request rejected with 400, all later ones with 401. -/
def trOem401 : Nat → OpenResult := fun n =>
  if n = 0 then .httpError 400 "Bad Request" [] else .httpError 401 "Unauthorized" []

/-- Initial transport state over the 400-then-401 oracle. -/
def stOem401 : MRState := { tr := trOem401, calls := 0, trace := [] }

/-- First request rejected with 400, all later ones with 403. -/
def trOem403 : Nat → OpenResult := fun n =>
  if n = 0 then .httpError 400 "Bad Request" [] else .httpError 403 "Forbidden" []

/-- Initial transport state over the 400-then-403 oracle. -/
def stOem403 : MRState := { tr := trOem403, calls := 0, trace := [] }

/-- First request rejected with 400, the second one accepted. -/
def trOemOk : Nat → OpenResult := fun n =>
  if n = 0 then .httpError 400 "Bad Request" [] else .success 200

/-- Initial transport state over the 400-then-success oracle. -/
def stOemOk : MRState := { tr := trOemOk, calls := 0, trace := [] }

/-- Partial power failure script: standard reset rejected with 400, the
ForceOff call (the fourth request) accepted, everything else rejected
with 500. -/
def trPartialPower : Nat → OpenResult := fun n =>
  if n = 3 then .success 200
  else if n = 0 then .httpError 400 "Bad Request" []
  else .httpError 500 "Internal Server Error" []

/-- Initial transport state over the partial power failure oracle. -/
def stPartialPower : MRState := { tr := trPartialPower, calls := 0, trace := [] }

/-- Two-phase success script: standard reset rejected with 400, OEM
ForceRestart and On rejected with 409, ForceOff and the final On
accepted. -/
def trOffOn : Nat → OpenResult := fun n =>
  if n = 0 then .httpError 400 "Bad Request" []
  else if n = 3 || n = 4 then .success 200
  else .httpError 409 "Conflict" []

/-- Initial transport state over the two-phase success oracle. -/
def stOffOn : MRState := { tr := trOffOn, calls := 0, trace := [] }

/-- Every request accepted with 204. -/
def trOk : Nat → OpenResult := fun _ => .success 204

/-- Initial transport state over the all-success oracle. -/
def stOk : MRState := { tr := trOk, calls := 0, trace := [] }

/-- Redirect script: first call answers 308 with a relative Location, the
follow-up succeeds. -/
def trRedirOk : Nat → OpenResult := fun n =>
  if n = 0 then .httpError 308 "Permanent Redirect" [("Location", "/redirected")]
  else .success 200

/-- Initial transport state over the successful redirect oracle. -/
def stRedirOk : MRState := { tr := trRedirOk, calls := 0, trace := [] }

/-- Redirect script answering a second redirect on the follow-up. -/
def trRedirTwice : Nat → OpenResult := fun n =>
  if n = 0 then .httpError 308 "Permanent Redirect" [("Location", "/redirected")]
  else .httpError 308 "Permanent Redirect" [("Location", "/elsewhere")]

/-- Initial transport state over the double redirect oracle. -/
def stRedirTwice : MRState := { tr := trRedirTwice, calls := 0, trace := [] }

/-! Cascade lemmas:

Conditional equations characterizing set_boot_device and reset_server in
terms of the outcomes of the individual make_request attempts.  These are
the shared building blocks of the claim theorems below. -/

/-- A succeeding standard attempt ends set_boot_device at once. -/
theorem sb_std_success {st s1 : MRState} {a u p dev m1 : String} {c1 : Int}
    (h1 : make_request st (sbStdUrl a) u p "PATCH" (some (bootData dev)) = ((true, c1, m1), s1)) :
    set_boot_device st a u p dev = ((true, c1, "Boot device set successfully"), s1) := by
  unfold set_boot_device
  rw [h1]
  simp

/-- A standard attempt failing with a status other than 400 ends
set_boot_device with exactly that failure. -/
theorem sb_stop {st s1 : MRState} {a u p dev m1 : String} {c1 : Int}
    (h1 : make_request st (sbStdUrl a) u p "PATCH" (some (bootData dev)) = ((false, c1, m1), s1))
    (hc : c1 ≠ 400) :
    set_boot_device st a u p dev = ((false, c1, m1), s1) := by
  unfold set_boot_device
  rw [h1]
  simp [hc]

/-- After a 400 on the standard attempt, a succeeding OEM attempt ends
set_boot_device with the OEM success message. -/
theorem sb_oem_success {st s1 s2 : MRState} {a u p dev m1 m2 : String} {c2 : Int}
    (h1 : make_request st (sbStdUrl a) u p "PATCH" (some (bootData dev)) = ((false, 400, m1), s1))
    (h2 : make_request s1 (sbOemUrl a) u p "PATCH" (some (bootData dev)) = ((true, c2, m2), s2)) :
    set_boot_device st a u p dev = ((true, c2, "Boot device set successfully (Dell OEM)"), s2) := by
  unfold set_boot_device
  rw [h1]
  simp [h2]

/-- After a 400 on the standard attempt, a failing OEM attempt ends
set_boot_device with the aggregate failure carrying the OEM status. -/
theorem sb_allfail {st s1 s2 : MRState} {a u p dev m1 m2 : String} {c2 : Int}
    (h1 : make_request st (sbStdUrl a) u p "PATCH" (some (bootData dev)) = ((false, 400, m1), s1))
    (h2 : make_request s1 (sbOemUrl a) u p "PATCH" (some (bootData dev)) = ((false, c2, m2), s2)) :
    set_boot_device st a u p dev
      = ((false, c2, "Standard and OEM methods failed: " ++ m1 ++ " / " ++ m2), s2) := by
  unfold set_boot_device
  rw [h1]
  simp [h2]

/-- A succeeding standard attempt ends reset_server at once. -/
theorem rs_std_success {st s1 : MRState} {a u p rt m1 : String} {c1 : Int}
    (h1 : make_request st (rsStdUrl a) u p "POST" (some (resetData rt)) = ((true, c1, m1), s1)) :
    reset_server st a u p rt = ((true, c1, "Server reset triggered"), s1) := by
  unfold reset_server
  rw [h1]
  simp

/-- A standard attempt failing with a status other than 400 ends
reset_server with exactly that failure. -/
theorem rs_stop {st s1 : MRState} {a u p rt m1 : String} {c1 : Int}
    (h1 : make_request st (rsStdUrl a) u p "POST" (some (resetData rt)) = ((false, c1, m1), s1))
    (hc : c1 ≠ 400) :
    reset_server st a u p rt = ((false, c1, m1), s1) := by
  unfold reset_server
  rw [h1]
  simp [hc]

/-- After a 400 on the standard attempt, a succeeding OEM attempt ends
reset_server with the OEM success message. -/
theorem rs_oem_success {st s1 s2 : MRState} {a u p rt m1 m2 : String} {c2 : Int}
    (h1 : make_request st (rsStdUrl a) u p "POST" (some (resetData rt)) = ((false, 400, m1), s1))
    (h2 : make_request s1 (rsOemUrl a) u p "POST" (some (resetData rt)) = ((true, c2, m2), s2)) :
    reset_server st a u p rt = ((true, c2, "Server reset triggered (Dell OEM)"), s2) := by
  unfold reset_server
  rw [h1]
  simp [h2]

/-- After 400 then a failed OEM attempt, a succeeding On attempt ends
reset_server with the powered-on message. -/
theorem rs_on_success {st s1 s2 s3 : MRState} {a u p rt m1 m2 m3 : String} {c2 c3 : Int}
    (h1 : make_request st (rsStdUrl a) u p "POST" (some (resetData rt)) = ((false, 400, m1), s1))
    (h2 : make_request s1 (rsOemUrl a) u p "POST" (some (resetData rt)) = ((false, c2, m2), s2))
    (h3 : make_request s2 (rsOemUrl a) u p "POST" (some (resetData "On")) = ((true, c3, m3), s3)) :
    reset_server st a u p rt = ((true, c3, "Server powered on (Dell OEM)"), s3) := by
  unfold reset_server
  rw [h1]
  simp [h2, h3]

/-- After 400, failed OEM and failed On attempts, a succeeding ForceOff
followed (after the 5 second sleep) by a succeeding On ends reset_server
with the two-phase success message. -/
theorem rs_offon_success {st s1 s2 s3 s4 s5 : MRState} {a u p rt m1 m2 m3 m4 m5 : String}
    {c2 c3 c4 c5 : Int}
    (h1 : make_request st (rsStdUrl a) u p "POST" (some (resetData rt)) = ((false, 400, m1), s1))
    (h2 : make_request s1 (rsOemUrl a) u p "POST" (some (resetData rt)) = ((false, c2, m2), s2))
    (h3 : make_request s2 (rsOemUrl a) u p "POST" (some (resetData "On")) = ((false, c3, m3), s3))
    (h4 : make_request s3 (rsOemUrl a) u p "POST" (some (resetData "ForceOff")) = ((true, c4, m4), s4))
    (h5 : make_request (sleepEvent 5 s4) (rsOemUrl a) u p "POST" (some (resetData "On"))
      = ((true, c5, m5), s5)) :
    reset_server st a u p rt = ((true, c5, "Server reset triggered (Dell OEM ForceOff+On)"), s5) := by
  unfold reset_server
  rw [h1]
  simp [h2, h3, h4, h5]

/-- After 400, failed OEM and failed On attempts, a succeeding ForceOff
followed by a failing On ends reset_server with the partial power
failure, carrying the final On status. -/
theorem rs_partial_failure {st s1 s2 s3 s4 s5 : MRState} {a u p rt m1 m2 m3 m4 m5 : String}
    {c2 c3 c4 c5 : Int}
    (h1 : make_request st (rsStdUrl a) u p "POST" (some (resetData rt)) = ((false, 400, m1), s1))
    (h2 : make_request s1 (rsOemUrl a) u p "POST" (some (resetData rt)) = ((false, c2, m2), s2))
    (h3 : make_request s2 (rsOemUrl a) u p "POST" (some (resetData "On")) = ((false, c3, m3), s3))
    (h4 : make_request s3 (rsOemUrl a) u p "POST" (some (resetData "ForceOff")) = ((true, c4, m4), s4))
    (h5 : make_request (sleepEvent 5 s4) (rsOemUrl a) u p "POST" (some (resetData "On"))
      = ((false, c5, m5), s5)) :
    reset_server st a u p rt
      = ((false, c5, "Server powered off successfully but failed to power back on: " ++ m5), s5) := by
  unfold reset_server
  rw [h1]
  simp [h2, h3, h4, h5]

/-- When all four reset stages fail, reset_server returns the aggregate
failure whose status is the one of the first OEM attempt. -/
theorem rs_allfail {st s1 s2 s3 s4 : MRState} {a u p rt m1 m2 m3 m4 : String} {c2 c3 c4 : Int}
    (h1 : make_request st (rsStdUrl a) u p "POST" (some (resetData rt)) = ((false, 400, m1), s1))
    (h2 : make_request s1 (rsOemUrl a) u p "POST" (some (resetData rt)) = ((false, c2, m2), s2))
    (h3 : make_request s2 (rsOemUrl a) u p "POST" (some (resetData "On")) = ((false, c3, m3), s3))
    (h4 : make_request s3 (rsOemUrl a) u p "POST" (some (resetData "ForceOff")) = ((false, c4, m4), s4)) :
    reset_server st a u p rt
      = ((false, c2, "All Dell reset methods failed: std=" ++ m1 ++ ", oem=" ++ m2
          ++ ", on=" ++ m3 ++ ", off=" ++ m4), s4) := by
  unfold reset_server
  rw [h1]
  simp [h2, h3, h4]

/-- Every make_request execution issues the assembled request first: its
final trace extends the starting trace with that request followed by
whatever else (at most the one redirect follow-up). -/
theorem mr_first_req (st : MRState) (url u p meth : String) (d : Option JVal) :
    ∃ rest, (make_request st url u p meth d).2.trace
      = st.trace ++ .req (mkRequest url u p meth d) :: rest := by
  unfold make_request openCall
  cases h : st.tr st.calls with
  | success c => exact ⟨[], by simp⟩
  | httpError c reason hdrs =>
      by_cases hred : ((c == 301 || c == 302 || c == 307 || c == 308)
          && (hdrs.lookup "Location").isSome) = true
      · simp only [hred, if_true]
        cases h2 : st.tr (st.calls + 1) <;>
          exact ⟨[.req (mkRequest (if !pyStartswith ((hdrs.lookup "Location").getD "") "http"
            then baseUrl url ++ (hdrs.lookup "Location").getD ""
            else (hdrs.lookup "Location").getD "") u p meth d)], by simp⟩
      · simp only [hred, if_false]
        exact ⟨[], by simp⟩
  | urlError reason => exact ⟨[], by simp⟩
  | otherError m => exact ⟨[], by simp⟩

/-- Every set_boot_device execution issues the standard-resource PATCH
with the boot-override body first, whatever follows. -/
theorem sb_first_req (st : MRState) (a u p dev : String) :
    ∃ rest, (set_boot_device st a u p dev).2.trace
      = st.trace ++ .req (mkRequest (sbStdUrl a) u p "PATCH" (some (bootData dev))) :: rest := by
  obtain ⟨r1, hr1⟩ := mr_first_req st (sbStdUrl a) u p "PATCH" (some (bootData dev))
  unfold set_boot_device
  rcases hmr : make_request st (sbStdUrl a) u p "PATCH" (some (bootData dev)) with ⟨⟨b, c, m⟩, s1⟩
  rw [hmr] at hr1
  simp only at hr1
  cases b
  · by_cases hc : (c == 400) = true
    · obtain ⟨r2, hr2⟩ := mr_first_req s1 (sbOemUrl a) u p "PATCH" (some (bootData dev))
      rcases hmr2 : make_request s1 (sbOemUrl a) u p "PATCH" (some (bootData dev)) with ⟨⟨b2, c2, m2⟩, s2⟩
      rw [hmr2] at hr2
      simp only at hr2
      refine ⟨r1 ++ .req (mkRequest (sbOemUrl a) u p "PATCH" (some (bootData dev))) :: r2, ?_⟩
      cases b2 <;> simp [hmr, hc, hmr2, hr2, hr1, List.append_assoc]
    · exact ⟨r1, by simp [hmr, hc, hr1]⟩
  · exact ⟨r1, by simp [hmr, hr1]⟩

/-! Claim theorems follow. -/

/-- C1: for both actions, a first (standard-endpoint) attempt that fails
with any status other than 400 (authorization and not-found statuses,
server errors, and the -1 transport sentinel alike) ends the cascade at
once: the returned failure carries exactly that attempt status and
message, and the returned transport state is the state right after that
first attempt, so no further network attempt is made. -/
theorem nonretryable_failure_stops_cascade
    (st : MRState) (s1 : MRState) (rst rs1 : MRState)
    (a u p dev : String) (m1 : String) (ra ru rp rt rm1 : String) (c1 rc1 : Int)
    (hsb : make_request st (sbStdUrl a) u p "PATCH" (some (bootData dev)) = ((false, c1, m1), s1))
    (hc : c1 ≠ 400)
    (hrs : make_request rst (rsStdUrl ra) ru rp "POST" (some (resetData rt)) = ((false, rc1, rm1), rs1))
    (hrc : rc1 ≠ 400) :
    set_boot_device st a u p dev = ((false, c1, m1), s1) ∧
    reset_server rst ra ru rp rt = ((false, rc1, rm1), rs1) :=
  ⟨sb_stop hsb hc, rs_stop hrs hrc⟩

/-- C1 witness: against a BMC answering 401 Unauthorized, both cascades
stop after exactly one request with that status and message. -/
theorem nonretryable_failure_stops_cascade_witness :
    ((401 : Int) ≠ 400) ∧
    (set_boot_device stAuthFail "bmc.example" "root" "pw" "Pxe").1
      = (false, 401, "HTTP Error: Unauthorized") ∧
    (set_boot_device stAuthFail "bmc.example" "root" "pw" "Pxe").2.calls = 1 ∧
    (reset_server stAuthFail "bmc.example" "root" "pw" "ForceRestart").1
      = (false, 401, "HTTP Error: Unauthorized") ∧
    (reset_server stAuthFail "bmc.example" "root" "pw" "ForceRestart").2.calls = 1 := by
  have h := nonretryable_failure_stops_cascade stAuthFail _ stAuthFail _
    "bmc.example" "root" "pw" "Pxe" _ "bmc.example" "root" "pw" "ForceRestart" _ 401 401
    rfl (by decide) rfl (by decide)
  exact ⟨by decide, congrArg Prod.fst h.1, congrArg (fun x => x.2.calls) h.1,
    congrArg Prod.fst h.2, congrArg (fun x => x.2.calls) h.2⟩

/-- C6 counterexample: with the standard boot-override attempt rejected
as 400 Bad Request and the OEM attempt as 403 Forbidden, the aggregate
failure message carries both attempt messages but neither attempt HTTP
status number, refuting the claim that every attempted variant status
appears in the final message string. -/
theorem aggregate_message_counterexample :
    (set_boot_device stOem403 "bmc.example" "root" "pw" "Pxe").1
      = (false, 403,
         "Standard and OEM methods failed: HTTP Error: Bad Request / HTTP Error: Forbidden") ∧
    strIn "400"
      "Standard and OEM methods failed: HTTP Error: Bad Request / HTTP Error: Forbidden" = false ∧
    strIn "403"
      "Standard and OEM methods failed: HTTP Error: Bad Request / HTTP Error: Forbidden" = false :=
  ⟨rfl, by decide, by decide⟩

/-- C6 amended: on total exhaustion the failure message aggregates every
attempted variant message text verbatim (labelled std, oem, on, off for
reset_server); the per-attempt HTTP statuses appear only insofar as a
message text mentions them, and the status field carries the first OEM
attempt status. -/
theorem aggregate_message_amended :
    (∀ (st s1 s2 : MRState) (a u p dev m1 m2 : String) (c2 : Int),
      make_request st (sbStdUrl a) u p "PATCH" (some (bootData dev)) = ((false, 400, m1), s1) →
      make_request s1 (sbOemUrl a) u p "PATCH" (some (bootData dev)) = ((false, c2, m2), s2) →
      (set_boot_device st a u p dev).1.2.2
        = "Standard and OEM methods failed: " ++ m1 ++ " / " ++ m2) ∧
    (∀ (st s1 s2 s3 s4 : MRState) (a u p rt m1 m2 m3 m4 : String) (c2 c3 c4 : Int),
      make_request st (rsStdUrl a) u p "POST" (some (resetData rt)) = ((false, 400, m1), s1) →
      make_request s1 (rsOemUrl a) u p "POST" (some (resetData rt)) = ((false, c2, m2), s2) →
      make_request s2 (rsOemUrl a) u p "POST" (some (resetData "On")) = ((false, c3, m3), s3) →
      make_request s3 (rsOemUrl a) u p "POST" (some (resetData "ForceOff")) = ((false, c4, m4), s4) →
      (reset_server st a u p rt).1.2.2
        = "All Dell reset methods failed: std=" ++ m1 ++ ", oem=" ++ m2
          ++ ", on=" ++ m3 ++ ", off=" ++ m4) := by
  constructor
  · intro st s1 s2 a u p dev m1 m2 c2 h1 h2
    rw [sb_allfail h1 h2]
  · intro st s1 s2 s3 s4 a u p rt m1 m2 m3 m4 c2 c3 c4 h1 h2 h3 h4
    rw [rs_allfail h1 h2 h3 h4]

/-- C6 amended witness: the aggregate messages produced against the
concrete 400-then-403 and 400-then-401 oracles. -/
theorem aggregate_message_amended_witness :
    (set_boot_device stOem403 "bmc.example" "root" "pw" "Pxe").1.2.2
      = "Standard and OEM methods failed: HTTP Error: Bad Request / HTTP Error: Forbidden" ∧
    (reset_server stOem401 "bmc.example" "root" "pw" "ForceRestart").1.2.2
      = "All Dell reset methods failed: std=HTTP Error: Bad Request, oem=HTTP Error: Unauthorized, on=HTTP Error: Unauthorized, off=HTTP Error: Unauthorized" := by
  have h1 := aggregate_message_amended.1 stOem403 _ _ "bmc.example" "root" "pw" "Pxe" _ _ _ rfl rfl
  have h2 := aggregate_message_amended.2 stOem401 _ _ _ _ "bmc.example" "root" "pw" "ForceRestart"
    _ _ _ _ _ _ _ rfl rfl rfl rfl
  exact ⟨h1, h2⟩

/-- C7: set_boot_device issues at most two attempts: the standard PATCH
with the Once/device boot-override body first, and the same PATCH against
the OEM resource only after a 400; the first succeeding attempt ends the
cascade with a message naming the variant, a non-400 standard failure
ends it at once, and the OEM success message differs from the standard
one. -/
theorem set_boot_two_attempt_cascade :
    (∀ (st s1 : MRState) (a u p dev m1 : String) (c1 : Int),
      make_request st (sbStdUrl a) u p "PATCH" (some (bootData dev)) = ((true, c1, m1), s1) →
      set_boot_device st a u p dev = ((true, c1, "Boot device set successfully"), s1)) ∧
    (∀ (st s1 s2 : MRState) (a u p dev m1 m2 : String) (c2 : Int),
      make_request st (sbStdUrl a) u p "PATCH" (some (bootData dev)) = ((false, 400, m1), s1) →
      make_request s1 (sbOemUrl a) u p "PATCH" (some (bootData dev)) = ((true, c2, m2), s2) →
      set_boot_device st a u p dev = ((true, c2, "Boot device set successfully (Dell OEM)"), s2)) ∧
    (∀ (st s1 s2 : MRState) (a u p dev m1 m2 : String) (c2 : Int),
      make_request st (sbStdUrl a) u p "PATCH" (some (bootData dev)) = ((false, 400, m1), s1) →
      make_request s1 (sbOemUrl a) u p "PATCH" (some (bootData dev)) = ((false, c2, m2), s2) →
      set_boot_device st a u p dev
        = ((false, c2, "Standard and OEM methods failed: " ++ m1 ++ " / " ++ m2), s2)) ∧
    (∀ (st s1 : MRState) (a u p dev m1 : String) (c1 : Int),
      make_request st (sbStdUrl a) u p "PATCH" (some (bootData dev)) = ((false, c1, m1), s1) →
      c1 ≠ 400 →
      set_boot_device st a u p dev = ((false, c1, m1), s1)) ∧
    (∀ (st : MRState) (a u p dev : String),
      ∃ rest, (set_boot_device st a u p dev).2.trace
        = st.trace ++ .req (mkRequest (sbStdUrl a) u p "PATCH" (some (bootData dev))) :: rest) ∧
    ("Boot device set successfully (Dell OEM)" ≠ "Boot device set successfully") := by
  refine ⟨?_, ?_, ?_, ?_, sb_first_req, by decide⟩
  · intro st s1 a u p dev m1 c1 h1
    exact sb_std_success h1
  · intro st s1 s2 a u p dev m1 m2 c2 h1 h2
    exact sb_oem_success h1 h2
  · intro st s1 s2 a u p dev m1 m2 c2 h1 h2
    exact sb_allfail h1 h2
  · intro st s1 a u p dev m1 c1 h1 hc
    exact sb_stop h1 hc

/-- C7 witness: against the 400-then-success oracle the OEM variant wins
and is named in the message, after exactly two requests. -/
theorem set_boot_two_attempt_cascade_witness :
    (set_boot_device stOemOk "bmc.example" "root" "pw" "Pxe").1
      = (true, 200, "Boot device set successfully (Dell OEM)") ∧
    (set_boot_device stOemOk "bmc.example" "root" "pw" "Pxe").2.calls = 2 := by
  have h := set_boot_two_attempt_cascade.2.1 stOemOk _ _ "bmc.example" "root" "pw" "Pxe" _ _ _
    rfl rfl
  exact ⟨congrArg Prod.fst h, congrArg (fun x => x.2.calls) h⟩

/-- C10: when both set_boot_device attempts fail after the standard 400,
and when all four reset_server stages fail, the status put in the result
is the one of the first OEM attempt; the standard 400 and the later On
and ForceOff statuses are never the reported status. -/
theorem oem_code_reported_on_exhaustion
    (st s1 s2 : MRState) (a u p dev m1 m2 : String) (c2 : Int)
    (rst t1 t2 t3 t4 : MRState) (ra ru rp rt n1 n2 n3 n4 : String) (d2 d3 d4 : Int)
    (h1 : make_request st (sbStdUrl a) u p "PATCH" (some (bootData dev)) = ((false, 400, m1), s1))
    (h2 : make_request s1 (sbOemUrl a) u p "PATCH" (some (bootData dev)) = ((false, c2, m2), s2))
    (h3 : make_request rst (rsStdUrl ra) ru rp "POST" (some (resetData rt)) = ((false, 400, n1), t1))
    (h4 : make_request t1 (rsOemUrl ra) ru rp "POST" (some (resetData rt)) = ((false, d2, n2), t2))
    (h5 : make_request t2 (rsOemUrl ra) ru rp "POST" (some (resetData "On")) = ((false, d3, n3), t3))
    (h6 : make_request t3 (rsOemUrl ra) ru rp "POST" (some (resetData "ForceOff")) = ((false, d4, n4), t4)) :
    (set_boot_device st a u p dev).1.2.1 = c2 ∧
    (reset_server rst ra ru rp rt).1.2.1 = d2 := by
  constructor
  · rw [sb_allfail h1 h2]
  · rw [rs_allfail h3 h4 h5 h6]

/-- C10 witness: the 403 of the OEM boot-override attempt and the 401 of
the OEM reset attempt are the reported statuses on exhaustion. -/
theorem oem_code_reported_on_exhaustion_witness :
    (set_boot_device stOem403 "bmc.example" "root" "pw" "Pxe").1.2.1 = 403 ∧
    (reset_server stOem401 "bmc.example" "root" "pw" "ForceRestart").1.2.1 = 401 := by
  have h := oem_code_reported_on_exhaustion stOem403 _ _ "bmc.example" "root" "pw" "Pxe" _ _ _
    stOem401 _ _ _ _ "bmc.example" "root" "pw" "ForceRestart" _ _ _ _ _ _ _
    rfl rfl rfl rfl rfl rfl
  exact h

/-- A pattern written inside a concrete concatenation is an infix of that
concatenation extended by any suffix. -/
theorem segment_in_append {α : Type} (s pat t l rest : List α) (h : s ++ (pat ++ t) = l) :
    pat <:+: (l ++ rest) :=
  ⟨s, t ++ rest, by subst h; simp [List.append_assoc]⟩

/-- C2 counterexample: with the standard reset rejected as 400 and every
OEM request rejected as 401, the cascade still reaches the ForceOff
phase: the fourth issued request is the OEM ForceOff, although the
preceding single-shot OEM attempts failed with 401, not 400. -/
theorem two_phase_gate_counterexample :
    ((reset_server stOem401 "bmc.example" "root" "pw" "ForceRestart").2.trace.getD 3 (.sleep 0)
      = .req (mkRequest (rsOemUrl "bmc.example") "root" "pw" "POST" (some (resetData "ForceOff")))) ∧
    (reset_server stOem401 "bmc.example" "root" "pw" "ForceRestart").2.calls = 4 ∧
    stOem401.tr 1 = .httpError 401 "Unauthorized" [] ∧
    ((401 : Int) ≠ 400) :=
  ⟨rfl, rfl, rfl, by decide⟩

/-- C2 amended: after the standard attempt fails with 400, the two-phase
ForceOff stage is entered whenever the OEM ForceRestart and OEM On
attempts merely failed, whatever their statuses: the next issued request
is the OEM ForceOff; only the standard attempt status is compared against
the 400 retry trigger. -/
theorem two_phase_gate_amended
    (st s1 s2 s3 : MRState) (a u p rt m1 m2 m3 : String) (c2 c3 : Int)
    (h1 : make_request st (rsStdUrl a) u p "POST" (some (resetData rt)) = ((false, 400, m1), s1))
    (h2 : make_request s1 (rsOemUrl a) u p "POST" (some (resetData rt)) = ((false, c2, m2), s2))
    (h3 : make_request s2 (rsOemUrl a) u p "POST" (some (resetData "On")) = ((false, c3, m3), s3)) :
    ∃ rest, (reset_server st a u p rt).2.trace
      = s3.trace ++ .req (mkRequest (rsOemUrl a) u p "POST" (some (resetData "ForceOff"))) :: rest := by
  obtain ⟨r4, hr4⟩ := mr_first_req s3 (rsOemUrl a) u p "POST" (some (resetData "ForceOff"))
  unfold reset_server
  rcases h4 : make_request s3 (rsOemUrl a) u p "POST" (some (resetData "ForceOff"))
    with ⟨⟨b4, c4, m4⟩, s4⟩
  rw [h4] at hr4
  simp only at hr4
  cases b4
  · exact ⟨r4, by simp [h1, h2, h3, h4, hr4]⟩
  · obtain ⟨r5, hr5⟩ := mr_first_req (sleepEvent 5 s4) (rsOemUrl a) u p "POST" (some (resetData "On"))
    rcases h5 : make_request (sleepEvent 5 s4) (rsOemUrl a) u p "POST" (some (resetData "On"))
      with ⟨⟨b5, c5, m5⟩, s5⟩
    rw [h5] at hr5
    simp only at hr5
    refine ⟨r4 ++ .sleep 5 :: .req (mkRequest (rsOemUrl a) u p "POST" (some (resetData "On"))) :: r5, ?_⟩
    cases b5 <;>
      simp only [h1, h2, h3, h4, h5] <;>
      simp <;>
      rw [hr5] <;>
      simp [sleepEvent, hr4, List.append_assoc]

/-- C2 amended witness: over the 400-then-401 oracle the first three
requests fail and the ForceOff request is issued as the fourth. -/
theorem two_phase_gate_amended_witness :
    ∃ rest, (reset_server stOem401 "bmc.example" "root" "pw" "ForceRestart").2.trace
      = [.req (mkRequest (rsStdUrl "bmc.example") "root" "pw" "POST" (some (resetData "ForceRestart"))),
         .req (mkRequest (rsOemUrl "bmc.example") "root" "pw" "POST" (some (resetData "ForceRestart"))),
         .req (mkRequest (rsOemUrl "bmc.example") "root" "pw" "POST" (some (resetData "On")))]
        ++ .req (mkRequest (rsOemUrl "bmc.example") "root" "pw" "POST" (some (resetData "ForceOff"))) :: rest :=
  two_phase_gate_amended stOem401 _ _ _ "bmc.example" "root" "pw" "ForceRestart" _ _ _ _ _
    rfl rfl rfl

/-- C3: when the OEM ForceOff succeeds and the subsequent On fails,
reset_server returns a failure carrying the final On status and the
distinct partial-failure message: the message contains the powered off
and failed to power back on texts, is not the generic all-methods-failed
message, and the reporter record built from the result has failed true
and changed false. -/
theorem partial_power_failure_reported_distinctly
    (st s1 s2 s3 s4 s5 : MRState) (a u p rt m1 m2 m3 m4 m5 : String) (c2 c3 c4 c5 : Int)
    (h1 : make_request st (rsStdUrl a) u p "POST" (some (resetData rt)) = ((false, 400, m1), s1))
    (h2 : make_request s1 (rsOemUrl a) u p "POST" (some (resetData rt)) = ((false, c2, m2), s2))
    (h3 : make_request s2 (rsOemUrl a) u p "POST" (some (resetData "On")) = ((false, c3, m3), s3))
    (h4 : make_request s3 (rsOemUrl a) u p "POST" (some (resetData "ForceOff")) = ((true, c4, m4), s4))
    (h5 : make_request (sleepEvent 5 s4) (rsOemUrl a) u p "POST" (some (resetData "On"))
      = ((false, c5, m5), s5)) :
    reset_server st a u p rt
      = ((false, c5, "Server powered off successfully but failed to power back on: " ++ m5), s5) ∧
    resultRecord false c5 ("Server powered off successfully but failed to power back on: " ++ m5)
      = [("failed", .bool true), ("changed", .bool false), ("status_code", .int c5),
         ("msg", .str ("Server powered off successfully but failed to power back on: " ++ m5))] ∧
    "powered off".data
      <:+: ("Server powered off successfully but failed to power back on: " ++ m5).data ∧
    "failed to power back on".data
      <:+: ("Server powered off successfully but failed to power back on: " ++ m5).data ∧
    ¬ ("All Dell reset methods failed".data
      <+: ("Server powered off successfully but failed to power back on: " ++ m5).data) := by
  refine ⟨rs_partial_failure h1 h2 h3 h4 h5, rfl, ?_, ?_, ?_⟩
  · rw [String.data_append]
    exact segment_in_append "Server ".data _
      " successfully but failed to power back on: ".data _ m5.data rfl
  · rw [String.data_append]
    exact segment_in_append "Server powered off successfully but ".data _ ": ".data _ m5.data rfl
  · rintro ⟨t, ht⟩
    rw [String.data_append] at ht
    have h0 : ('A' : Char) = 'S' := congrArg (fun l => l.getD 0 ' ') ht
    exact absurd h0 (by decide)

/-- C3 witness: over the partial power oracle (400, 500, 500, success,
500) the result is the partial failure with status 500. -/
theorem partial_power_failure_reported_distinctly_witness :
    (reset_server stPartialPower "bmc.example" "root" "pw" "ForceRestart").1
      = (false, 500,
         "Server powered off successfully but failed to power back on: HTTP Error: Internal Server Error") ∧
    "powered off".data <:+:
      ("Server powered off successfully but failed to power back on: HTTP Error: Internal Server Error").data := by
  have h := partial_power_failure_reported_distinctly stPartialPower _ _ _ _ _
    "bmc.example" "root" "pw" "ForceRestart" _ _ _ _ _ _ _ _ _ rfl rfl rfl rfl rfl
  exact ⟨congrArg Prod.fst h.1, h.2.2.1⟩

/-- C4: reset_server runs its stages in the fixed order standard reset,
OEM reset, OEM On, OEM ForceOff plus 5 second sleep plus OEM On, and
returns at the first succeeding stage with that stage message and
transport state, making no request beyond it; when every stage fails it
stops after the ForceOff attempt with the aggregate failure. -/
theorem reset_cascade_first_success_order :
    (∀ (st s1 : MRState) (a u p rt m1 : String) (c1 : Int),
      make_request st (rsStdUrl a) u p "POST" (some (resetData rt)) = ((true, c1, m1), s1) →
      reset_server st a u p rt = ((true, c1, "Server reset triggered"), s1)) ∧
    (∀ (st s1 s2 : MRState) (a u p rt m1 m2 : String) (c2 : Int),
      make_request st (rsStdUrl a) u p "POST" (some (resetData rt)) = ((false, 400, m1), s1) →
      make_request s1 (rsOemUrl a) u p "POST" (some (resetData rt)) = ((true, c2, m2), s2) →
      reset_server st a u p rt = ((true, c2, "Server reset triggered (Dell OEM)"), s2)) ∧
    (∀ (st s1 s2 s3 : MRState) (a u p rt m1 m2 m3 : String) (c2 c3 : Int),
      make_request st (rsStdUrl a) u p "POST" (some (resetData rt)) = ((false, 400, m1), s1) →
      make_request s1 (rsOemUrl a) u p "POST" (some (resetData rt)) = ((false, c2, m2), s2) →
      make_request s2 (rsOemUrl a) u p "POST" (some (resetData "On")) = ((true, c3, m3), s3) →
      reset_server st a u p rt = ((true, c3, "Server powered on (Dell OEM)"), s3)) ∧
    (∀ (st s1 s2 s3 s4 s5 : MRState) (a u p rt m1 m2 m3 m4 m5 : String) (c2 c3 c4 c5 : Int),
      make_request st (rsStdUrl a) u p "POST" (some (resetData rt)) = ((false, 400, m1), s1) →
      make_request s1 (rsOemUrl a) u p "POST" (some (resetData rt)) = ((false, c2, m2), s2) →
      make_request s2 (rsOemUrl a) u p "POST" (some (resetData "On")) = ((false, c3, m3), s3) →
      make_request s3 (rsOemUrl a) u p "POST" (some (resetData "ForceOff")) = ((true, c4, m4), s4) →
      make_request (sleepEvent 5 s4) (rsOemUrl a) u p "POST" (some (resetData "On"))
        = ((true, c5, m5), s5) →
      reset_server st a u p rt = ((true, c5, "Server reset triggered (Dell OEM ForceOff+On)"), s5)) ∧
    (∀ (st s1 s2 s3 s4 : MRState) (a u p rt m1 m2 m3 m4 : String) (c2 c3 c4 : Int),
      make_request st (rsStdUrl a) u p "POST" (some (resetData rt)) = ((false, 400, m1), s1) →
      make_request s1 (rsOemUrl a) u p "POST" (some (resetData rt)) = ((false, c2, m2), s2) →
      make_request s2 (rsOemUrl a) u p "POST" (some (resetData "On")) = ((false, c3, m3), s3) →
      make_request s3 (rsOemUrl a) u p "POST" (some (resetData "ForceOff")) = ((false, c4, m4), s4) →
      reset_server st a u p rt
        = ((false, c2, "All Dell reset methods failed: std=" ++ m1 ++ ", oem=" ++ m2
            ++ ", on=" ++ m3 ++ ", off=" ++ m4), s4)) := by
  refine ⟨?_, ?_, ?_, ?_, ?_⟩
  · intro st s1 a u p rt m1 c1 h1
    exact rs_std_success h1
  · intro st s1 s2 a u p rt m1 m2 c2 h1 h2
    exact rs_oem_success h1 h2
  · intro st s1 s2 s3 a u p rt m1 m2 m3 c2 c3 h1 h2 h3
    exact rs_on_success h1 h2 h3
  · intro st s1 s2 s3 s4 s5 a u p rt m1 m2 m3 m4 m5 c2 c3 c4 c5 h1 h2 h3 h4 h5
    exact rs_offon_success h1 h2 h3 h4 h5
  · intro st s1 s2 s3 s4 a u p rt m1 m2 m3 m4 c2 c3 c4 h1 h2 h3 h4
    exact rs_allfail h1 h2 h3 h4

/-- C4 witness: an immediately succeeding standard reset returns after
one request; over the two-phase oracle the cascade succeeds at the last
stage with five requests and the 5 second sleep as the fifth event. -/
theorem reset_cascade_first_success_order_witness :
    (reset_server stOk "bmc.example" "root" "pw" "ForceRestart").1
      = (true, 204, "Server reset triggered") ∧
    (reset_server stOk "bmc.example" "root" "pw" "ForceRestart").2.calls = 1 ∧
    (reset_server stOffOn "bmc.example" "root" "pw" "ForceRestart").1
      = (true, 200, "Server reset triggered (Dell OEM ForceOff+On)") ∧
    (reset_server stOffOn "bmc.example" "root" "pw" "ForceRestart").2.calls = 5 ∧
    (reset_server stOffOn "bmc.example" "root" "pw" "ForceRestart").2.trace.getD 4 (.sleep 0)
      = .sleep 5 := by
  have hA := reset_cascade_first_success_order.1 stOk _ "bmc.example" "root" "pw" "ForceRestart"
    _ _ rfl
  have hD := reset_cascade_first_success_order.2.2.2.1 stOffOn _ _ _ _ _
    "bmc.example" "root" "pw" "ForceRestart" _ _ _ _ _ _ _ _ _ rfl rfl rfl rfl rfl
  exact ⟨congrArg Prod.fst hA, congrArg (fun x => x.2.calls) hA, congrArg Prod.fst hD,
    congrArg (fun x => x.2.calls) hD, congrArg (fun x => x.2.trace.getD 4 (.sleep 0)) hD⟩

/-- C5: on a 301, 302, 307 or 308 answer carrying a Location header, a
PATCH or POST is re-issued exactly once to the resolved location (the
Location itself when it starts with http, otherwise the original scheme
and host prepended) with the same method, headers and body; the
follow-up outcome decides the attempt, and any failing follow-up,
including a second redirect answer, makes the attempt fail with the
original redirect status. -/
theorem redirect_single_hop
    (st : MRState) (url u p meth : String) (d : Option JVal)
    (c : Int) (reason loc : String) (hdrs : List (String × String))
    (h1 : st.tr st.calls = .httpError c reason hdrs)
    (hc : c = 301 ∨ c = 302 ∨ c = 307 ∨ c = 308)
    (hloc : hdrs.lookup "Location" = some loc) :
    (make_request st url u p meth d).2
      = { st with
            calls := st.calls + 2
            trace := st.trace ++ [.req (mkRequest url u p meth d),
              .req (mkRequest (if !pyStartswith loc "http" then baseUrl url ++ loc else loc)
                u p meth d)] } ∧
    (∀ c2 : Int, st.tr (st.calls + 1) = .success c2 →
      (make_request st url u p meth d).1 = (true, c2, "Success (after redirect to " ++ loc ++ ")")) ∧
    (∀ e : OpenResult, st.tr (st.calls + 1) = e → e.isErr = true →
      (make_request st url u p meth d).1
        = (false, c, "Redirect to " ++ loc ++ " failed: " ++ excnStr e)) := by
  have hcond : (c == 301 || c == 302 || c == 307 || c == 308) = true := by
    rcases hc with rfl | rfl | rfl | rfl <;> decide
  refine ⟨?_, ?_, ?_⟩
  · unfold make_request openCall
    rw [h1]
    simp only [hcond, hloc]
    cases h2 : st.tr (st.calls + 1) <;>
      simp [List.append_assoc, MRState.mk.injEq]
  · intro c2 h2
    unfold make_request openCall
    rw [h1]
    simp only [hcond, hloc]
    simp [h2]
  · intro e h2 he
    unfold make_request openCall
    rw [h1]
    simp only [hcond, hloc]
    cases e with
    | success c2 => simp [OpenResult.isErr] at he
    | httpError c2 r2 hd2 => simp [h2, excnStr]
    | urlError r2 => simp [h2, excnStr]
    | otherError m2 => simp [h2, excnStr]

/-- C5 witness: a relative 308 redirect is followed once and succeeds;
when the follow-up answers another redirect the attempt fails with the
original redirect status after exactly two requests. -/
theorem redirect_single_hop_witness :
    (make_request stRedirOk "https://bmc.example/redfish/v1/Systems/1" "root" "pw" "PATCH"
      (some (bootData "Pxe"))).1 = (true, 200, "Success (after redirect to /redirected)") ∧
    (make_request stRedirOk "https://bmc.example/redfish/v1/Systems/1" "root" "pw" "PATCH"
      (some (bootData "Pxe"))).2.calls = 2 ∧
    (make_request stRedirTwice "https://bmc.example/redfish/v1/Systems/1" "root" "pw" "PATCH"
      (some (bootData "Pxe"))).1
      = (false, 308, "Redirect to /redirected failed: HTTP Error 308: Permanent Redirect") ∧
    (make_request stRedirTwice "https://bmc.example/redfish/v1/Systems/1" "root" "pw" "PATCH"
      (some (bootData "Pxe"))).2.calls = 2 := by
  have hOk := redirect_single_hop stRedirOk "https://bmc.example/redfish/v1/Systems/1"
    "root" "pw" "PATCH" (some (bootData "Pxe")) 308 "Permanent Redirect" "/redirected"
    [("Location", "/redirected")] rfl (Or.inr (Or.inr (Or.inr rfl))) rfl
  have hTw := redirect_single_hop stRedirTwice "https://bmc.example/redfish/v1/Systems/1"
    "root" "pw" "PATCH" (some (bootData "Pxe")) 308 "Permanent Redirect" "/redirected"
    [("Location", "/redirected")] rfl (Or.inr (Or.inr (Or.inr rfl))) rfl
  exact ⟨hOk.2.1 200 rfl, congrArg (fun x => x.calls) hOk.1,
    hTw.2.2 (.httpError 308 "Permanent Redirect" [("Location", "/elsewhere")]) rfl rfl,
    congrArg (fun x => x.calls) hTw.1⟩

/-- C8 counterexample: a wrong argument count prints a record carrying
only the failed and msg fields: the changed and status_code fields the
claim requires of every invocation are absent from the usage-error
record. -/
theorem main_output_fields_counterexample :
    ((main stAuthFail ["redfish_pxe_boot.py"]).1.output.map Prod.fst = ["failed", "msg"]) ∧
    (main stAuthFail ["redfish_pxe_boot.py"]).1.output.lookup "changed" = none ∧
    (main stAuthFail ["redfish_pxe_boot.py"]).1.output.lookup "status_code" = none ∧
    (main stAuthFail ["redfish_pxe_boot.py"]).1.exitCode = 1 :=
  ⟨rfl, rfl, rfl, rfl⟩

/-- C8 amended: every invocation prints exactly one record; with the
right argument count the record has the four fields failed, changed,
status_code, msg in order and the exit code is 0 exactly when the failed
field is false; with a wrong argument count the record has only failed
and msg and the exit code is 1. -/
theorem main_output_fields_amended (st : MRState) (argv : List String) :
    (argv.length = 5 →
      ((main st argv).1.output.map Prod.fst = ["failed", "changed", "status_code", "msg"] ∧
       ((main st argv).1.exitCode = 0 ↔
         (main st argv).1.output.lookup "failed" = some (.bool false)))) ∧
    (argv.length ≠ 5 →
      main st argv
        = ({ output := [("failed", .bool true), ("msg", .str usageMsg)], exitCode := 1 }, st)) := by
  constructor
  · intro h5
    unfold main
    rw [if_neg (not_not_intro h5)]
    dsimp only
    rcases hact : (if (argv.getD 4 "") == "set_boot"
        then set_boot_device st (argv.getD 1 "") (argv.getD 2 "") (argv.getD 3 "") "Pxe"
        else if (argv.getD 4 "") == "reset"
        then reset_server st (argv.getD 1 "") (argv.getD 2 "") (argv.getD 3 "") "ForceRestart"
        else ((false, -1, "Unknown action: " ++ argv.getD 4 ""), st)) with ⟨⟨s, c, m⟩, st2⟩
    cases s <;> simp [resultRecord, List.lookup]
  · intro h5
    unfold main
    rw [if_pos h5]

/-- C8 amended witness: an unknown action with the right argument count
prints all four fields and exits 1 with failed true. -/
theorem main_output_fields_amended_witness :
    ((main stAuthFail ["redfish_pxe_boot.py", "bmc.example", "root", "pw", "frobnicate"]).1.output.map
        Prod.fst = ["failed", "changed", "status_code", "msg"]) ∧
    ((main stAuthFail ["redfish_pxe_boot.py", "bmc.example", "root", "pw", "frobnicate"]).1.exitCode
        = 0 ↔
      (main stAuthFail ["redfish_pxe_boot.py", "bmc.example", "root", "pw", "frobnicate"]).1.output.lookup
        "failed" = some (.bool false)) :=
  (main_output_fields_amended stAuthFail
    ["redfish_pxe_boot.py", "bmc.example", "root", "pw", "frobnicate"]).1 rfl

/-- C9 counterexample: the power type amt matches none of the vendor
patterns, yet extract_oob_info maps it to amt itself rather than to the
manual fallback the claim requires for every unrecognized power type. -/
theorem oob_type_fallback_counterexample :
    (extract_oob_info { power_type := "amt", power_parameters := [] }).lookup "oob_type"
      = some "amt" ∧
    oobRecognized "amt" = false ∧
    ("amt" : String) ≠ "manual" :=
  ⟨rfl, by decide, by decide⟩

/-- C9 amended: when the power type matches a recognized vendor pattern
the extracted oob_type is one of the six enumerated values; otherwise the
oob_type is the power type string itself, with manual used only for an
empty power type. -/
theorem oob_type_mapping_amended (m : Machine) :
    (oobRecognized m.power_type = true →
      ((extract_oob_info m).lookup "oob_type" = some "ipmi" ∨
       (extract_oob_info m).lookup "oob_type" = some "virsh" ∨
       (extract_oob_info m).lookup "oob_type" = some "hmc" ∨
       (extract_oob_info m).lookup "oob_type" = some "ilo" ∨
       (extract_oob_info m).lookup "oob_type" = some "idrac" ∨
       (extract_oob_info m).lookup "oob_type" = some "redfish")) ∧
    (oobRecognized m.power_type = false →
      (extract_oob_info m).lookup "oob_type"
        = some (if m.power_type == "" then "manual" else m.power_type)) := by
  have hlk : (extract_oob_info m).lookup "oob_type"
      = some (if strIn "ipmi" m.power_type then "ipmi"
        else if strIn "virsh" m.power_type then "virsh"
        else if strIn "hmc" m.power_type then "hmc"
        else if strIn "ilo" (pyLower m.power_type) || strIn "hpilo" (pyLower m.power_type) then "ilo"
        else if strIn "idrac" (pyLower m.power_type) || strIn "drac" (pyLower m.power_type) then "idrac"
        else if strIn "redfish" (pyLower m.power_type) then "redfish"
        else if m.power_type == "" then "manual" else m.power_type) := by
    unfold extract_oob_info
    simp [List.lookup]
  constructor
  · intro h
    rw [hlk]
    split_ifs <;> simp_all [oobRecognized]
  · intro h
    rw [hlk]
    split_ifs <;> simp_all [oobRecognized]

/-- C9 amended witness: idrac8 is recognized and maps into the enumerated
set; amt is unrecognized and maps to itself. -/
theorem oob_type_mapping_amended_witness :
    oobRecognized "idrac8" = true ∧
    ((extract_oob_info { power_type := "idrac8", power_parameters := [] }).lookup "oob_type"
        = some "ipmi" ∨
     (extract_oob_info { power_type := "idrac8", power_parameters := [] }).lookup "oob_type"
        = some "virsh" ∨
     (extract_oob_info { power_type := "idrac8", power_parameters := [] }).lookup "oob_type"
        = some "hmc" ∨
     (extract_oob_info { power_type := "idrac8", power_parameters := [] }).lookup "oob_type"
        = some "ilo" ∨
     (extract_oob_info { power_type := "idrac8", power_parameters := [] }).lookup "oob_type"
        = some "idrac" ∨
     (extract_oob_info { power_type := "idrac8", power_parameters := [] }).lookup "oob_type"
        = some "redfish") ∧
    (extract_oob_info { power_type := "amt", power_parameters := [] }).lookup "oob_type"
      = some "amt" :=
  ⟨by decide, (oob_type_mapping_amended { power_type := "idrac8", power_parameters := [] }).1
    (by decide),
   (oob_type_mapping_amended { power_type := "amt", power_parameters := [] }).2 (by decide)⟩

end TalosDeploy
